import Mathlib

/-
  Shallow embedding of the hairybear-web application (TypeScript / React).

  Sources embedded here:
  - src/types/bear.types.ts          : type definitions, BREAKPOINTS, constants
  - src/utils/animation-config.ts    : the static animation catalog (ANIMATIONS)
  - src/hooks/useResponsive.ts       : viewport classification (pure part) and
                                       the 100 ms debounce coalescing semantics
  - src/hooks/useDevicePerformance.ts: device tier detection pipeline
  - src/hooks/useBearModel.ts        : playAnimation / action-set semantics
  - src/components/ErrorBoundary.tsx : error-boundary render
  - src/components/TapToStart.tsx    : tap-to-start overlay click handling
  - src/App.tsx                      : top-level composition (render output as a
                                       pure function of state)

  Numbers that are fractional in the source (scales, color-scheme fields,
  device memory, pixel ratio) are modelled as rationals; integer pixel
  widths/heights are also modelled as rationals since the browser reports
  them as JS numbers.
-/

namespace HairyBear

/-! ### Types from src/types/bear.types.ts -/

inductive DeviceType
  | desktop
  | tablet
  | mobile
deriving DecidableEq, Repr

inductive PerformanceTier
  | high
  | medium
  | low
deriving DecidableEq, Repr

inductive Orientation
  | portrait
  | landscape
deriving DecidableEq, Repr

inductive AnimationCategory
  | dance
  | action
  | gesture
  | movement
  | emotion
deriving DecidableEq, Repr

structure ColorScheme where
  hueShift : ℚ
  colorFrequency : ℚ
  bloom : ℚ
  saturation : ℚ
deriving DecidableEq, Repr

structure Animation where
  id : String
  name : String
  displayName : String
  duration : ℚ
  colorScheme : ColorScheme
  category : AnimationCategory
deriving DecidableEq, Repr

/-- Breakpoint table from bear.types.ts: `BREAKPOINTS = { mobile: 768, tablet: 1024 }`. -/
structure Breakpoints where
  mobile : ℚ
  tablet : ℚ
deriving DecidableEq, Repr

def BREAKPOINTS : Breakpoints := { mobile := 768, tablet := 1024 }

def MIN_VIEWPORT_WIDTH : ℚ := 320

/-! ### src/hooks/useResponsive.ts (pure classification part) -/

structure UseResponsiveReturn where
  width : ℚ
  height : ℚ
  deviceType : DeviceType
  orientation : Orientation
  isMobile : Bool
  isTablet : Bool
  isDesktop : Bool
  isPortrait : Bool
  isLandscape : Bool
  isBelowMinWidth : Bool
deriving DecidableEq, Repr

/-- Embedding of the body of `useResponsive` as a pure function of the current
    `width`/`height` state: device type is the chained conditional
    `width < BREAKPOINTS.mobile ? 'mobile' : width < BREAKPOINTS.tablet ? 'tablet' : 'desktop'`,
    orientation is `width > height ? 'landscape' : 'portrait'`. -/
def useResponsive (width height : ℚ) : UseResponsiveReturn :=
  let deviceType : DeviceType :=
    if width < BREAKPOINTS.mobile then .mobile
    else if width < BREAKPOINTS.tablet then .tablet
    else .desktop
  let orientation : Orientation :=
    if width > height then .landscape else .portrait
  { width := width
    height := height
    deviceType := deviceType
    orientation := orientation
    isMobile := deviceType = .mobile
    isTablet := deviceType = .tablet
    isDesktop := deviceType = .desktop
    isPortrait := orientation = .portrait
    isLandscape := orientation = .landscape
    isBelowMinWidth := width < MIN_VIEWPORT_WIDTH }

/-- Debounce coalescing semantics of the resize handler in `useResponsive`:
    each incoming resize event clears the pending timeout and re-schedules
    with its own (width, height), so once the 100 ms quiet period elapses the
    applied state is the last event's value (or the initial state when no
    event arrived). -/
def debouncedViewport (init : ℚ × ℚ) (events : List (ℚ × ℚ)) : ℚ × ℚ :=
  events.foldl (fun _pending e => e) init

/-! ### src/utils/animation-config.ts : the static catalog.

`ANIMATION_CONFIG` is a string-keyed record built in source order;
`ANIMATIONS = Object.values(ANIMATION_CONFIG)` lists the entries in that
insertion order. We embed the value list directly and recover keyed lookup
with `find?`. -/

def ANIMATIONS : List Animation := [
  { id := "hip-hop-dancing", name := "hip-hop-dancing", displayName := "Hip Hop Dancing", duration := 3.5,
    colorScheme := { hueShift := 0.8, colorFrequency := 1.5, bloom := 1.8, saturation := 1.7 },
    category := .dance },
  { id := "jumping", name := "jumping", displayName := "Jumping", duration := 1.2,
    colorScheme := { hueShift := 0.3, colorFrequency := 1.8, bloom := 1.5, saturation := 1.5 },
    category := .action },
  { id := "punching", name := "punching", displayName := "Punching", duration := 1.5,
    colorScheme := { hueShift := -0.5, colorFrequency := 1.6, bloom := 1.7, saturation := 1.8 },
    category := .action },
  { id := "running", name := "running", displayName := "Running", duration := 2.0,
    colorScheme := { hueShift := 0.4, colorFrequency := 1.7, bloom := 1.4, saturation := 1.6 },
    category := .movement },
  { id := "sitting-clap", name := "sitting-clap", displayName := "Sitting Clap", duration := 2.5,
    colorScheme := { hueShift := 0.6, colorFrequency := 1.3, bloom := 1.5, saturation := 1.4 },
    category := .gesture },
  { id := "sitting-pose", name := "sitting-pose", displayName := "Sitting Pose", duration := 3.0,
    colorScheme := { hueShift := 0.2, colorFrequency := 1.0, bloom := 1.3, saturation := 1.3 },
    category := .gesture },
  { id := "walking", name := "walking", displayName := "Walking", duration := 2.5,
    colorScheme := { hueShift := 0.1, colorFrequency := 1.2, bloom := 1.2, saturation := 1.4 },
    category := .movement },
  { id := "weaving", name := "weaving", displayName := "Weaving", duration := 2.8,
    colorScheme := { hueShift := 0.7, colorFrequency := 1.4, bloom := 1.6, saturation := 1.5 },
    category := .movement },
  { id := "cheering", name := "cheering", displayName := "Cheering", duration := 2.2,
    colorScheme := { hueShift := 0.9, colorFrequency := 1.6, bloom := 1.9, saturation := 1.9 },
    category := .emotion },
  { id := "crying", name := "crying", displayName := "Crying", duration := 3.0,
    colorScheme := { hueShift := -0.8, colorFrequency := 0.8, bloom := 1.1, saturation := 1.2 },
    category := .emotion },
  { id := "bowing", name := "bowing", displayName := "Bowing", duration := 2.0,
    colorScheme := { hueShift := 0.5, colorFrequency := 1.1, bloom := 1.4, saturation := 1.3 },
    category := .gesture },
  { id := "noding", name := "noding", displayName := "Nodding", duration := 1.5,
    colorScheme := { hueShift := 0.3, colorFrequency := 1.3, bloom := 1.3, saturation := 1.4 },
    category := .gesture },
  { id := "head-spinning", name := "head-spinning", displayName := "Head Spinning", duration := 2.5,
    colorScheme := { hueShift := 1.0, colorFrequency := 1.9, bloom := 1.8, saturation := 1.8 },
    category := .action },
  { id := "welcome", name := "welcome", displayName := "Welcome", duration := 2.0,
    colorScheme := { hueShift := 0.6, colorFrequency := 1.4, bloom := 1.6, saturation := 1.6 },
    category := .gesture },
  { id := "clapping", name := "clapping", displayName := "Clapping", duration := 1.8,
    colorScheme := { hueShift := 0.4, colorFrequency := 1.5, bloom := 1.5, saturation := 1.5 },
    category := .gesture },
  { id := "climbing", name := "climbing", displayName := "Climbing", duration := 3.5,
    colorScheme := { hueShift := 0.2, colorFrequency := 1.3, bloom := 1.4, saturation := 1.5 },
    category := .action },
  { id := "run-away", name := "run-away", displayName := "Run Away", duration := 2.3,
    colorScheme := { hueShift := -0.3, colorFrequency := 1.7, bloom := 1.6, saturation := 1.7 },
    category := .movement },
  { id := "praying", name := "praying", displayName := "Praying", duration := 3.0,
    colorScheme := { hueShift := 0.5, colorFrequency := 0.9, bloom := 1.3, saturation := 1.2 },
    category := .gesture },
  { id := "fall-down", name := "fall-down", displayName := "Fall Down", duration := 2.0,
    colorScheme := { hueShift := -0.6, colorFrequency := 1.4, bloom := 1.2, saturation := 1.3 },
    category := .action },
  { id := "looking-right", name := "looking-right", displayName := "Looking Right", duration := 1.5,
    colorScheme := { hueShift := 0.3, colorFrequency := 1.1, bloom := 1.3, saturation := 1.3 },
    category := .gesture },
  { id := "laying", name := "laying", displayName := "Laying", duration := 2.5,
    colorScheme := { hueShift := 0.1, colorFrequency := 0.8, bloom := 1.2, saturation := 1.2 },
    category := .gesture },
  { id := "lying-down", name := "lying-down", displayName := "Lying Down", duration := 2.8,
    colorScheme := { hueShift := 0.0, colorFrequency := 0.7, bloom := 1.1, saturation := 1.1 },
    category := .gesture },
  { id := "salute", name := "salute", displayName := "Salute", duration := 1.8,
    colorScheme := { hueShift := 0.4, colorFrequency := 1.2, bloom := 1.4, saturation := 1.4 },
    category := .gesture },
  { id := "melee-attack", name := "melee-attack", displayName := "Melee Attack", duration := 2.0,
    colorScheme := { hueShift := -0.7, colorFrequency := 1.8, bloom := 1.9, saturation := 1.9 },
    category := .action },
  { id := "heavy-hit", name := "heavy-hit", displayName := "Heavy Hit", duration := 1.5,
    colorScheme := { hueShift := -0.9, colorFrequency := 1.9, bloom := 2.0, saturation := 2.0 },
    category := .action },
  { id := "look-around", name := "look-around", displayName := "Look Around", duration := 2.5,
    colorScheme := { hueShift := 0.2, colorFrequency := 1.2, bloom := 1.3, saturation := 1.3 },
    category := .gesture },
  { id := "situp", name := "situp", displayName := "Sit Up", duration := 2.0,
    colorScheme := { hueShift := 0.3, colorFrequency := 1.3, bloom := 1.4, saturation := 1.4 },
    category := .action },
  { id := "soul-spin", name := "soul-spin", displayName := "Soul Spin", duration := 3.0,
    colorScheme := { hueShift := 1.2, colorFrequency := 1.8, bloom := 1.9, saturation := 1.9 },
    category := .dance },
  { id := "break-dance", name := "break-dance", displayName := "Break Dance", duration := 4.0,
    colorScheme := { hueShift := 0.9, colorFrequency := 1.7, bloom := 1.8, saturation := 1.8 },
    category := .dance },
  { id := "swing-dance", name := "swing-dance", displayName := "Swing Dance", duration := 3.5,
    colorScheme := { hueShift := 0.7, colorFrequency := 1.6, bloom := 1.7, saturation := 1.7 },
    category := .dance },
  { id := "jogging-box", name := "jogging-box", displayName := "Jogging Box", duration := 2.5,
    colorScheme := { hueShift := 0.4, colorFrequency := 1.5, bloom := 1.5, saturation := 1.6 },
    category := .movement },
  { id := "clown-walk", name := "clown-walk", displayName := "Clown Walk", duration := 2.8,
    colorScheme := { hueShift := 0.8, colorFrequency := 1.6, bloom := 1.7, saturation := 1.7 },
    category := .movement },
  { id := "jumping-jack", name := "jumping-jack", displayName := "Jumping Jack", duration := 2.0,
    colorScheme := { hueShift := 0.5, colorFrequency := 1.6, bloom := 1.6, saturation := 1.6 },
    category := .action },
  { id := "strong-gesture", name := "strong-gesture", displayName := "Strong Gesture", duration := 1.8,
    colorScheme := { hueShift := 0.6, colorFrequency := 1.4, bloom := 1.7, saturation := 1.7 },
    category := .gesture },
  { id := "dancing", name := "dancing", displayName := "Dancing", duration := 3.5,
    colorScheme := { hueShift := 0.8, colorFrequency := 1.5, bloom := 1.7, saturation := 1.7 },
    category := .dance },
  { id := "praying-down", name := "praying-down", displayName := "Praying Down", duration := 3.0,
    colorScheme := { hueShift := 0.4, colorFrequency := 0.9, bloom := 1.2, saturation := 1.2 },
    category := .gesture },
  { id := "silly-dancing", name := "silly-dancing", displayName := "Silly Dancing", duration := 3.2,
    colorScheme := { hueShift := 1.0, colorFrequency := 1.8, bloom := 1.9, saturation := 1.9 },
    category := .dance },
  { id := "standing-clap", name := "standing-clap", displayName := "Standing Clap", duration := 2.0,
    colorScheme := { hueShift := 0.5, colorFrequency := 1.4, bloom := 1.5, saturation := 1.5 },
    category := .gesture },
  { id := "sneaking-right", name := "sneaking-right", displayName := "Sneaking Right", duration := 2.5,
    colorScheme := { hueShift := 0.2, colorFrequency := 1.2, bloom := 1.3, saturation := 1.4 },
    category := .movement },
  { id := "standing-torch-run-forward", name := "standing-torch-run-forward", displayName := "Torch Run Forward", duration := 2.5,
    colorScheme := { hueShift := 0.6, colorFrequency := 1.5, bloom := 1.8, saturation := 1.7 },
    category := .movement }]

/-- Embedding of `getAnimationByName` / `ANIMATION_CONFIG[name]`. -/
def getAnimationByName (name : String) : Option Animation :=
  ANIMATIONS.find? (fun a => a.name = name)

def DEFAULT_ANIMATION : String := "hip-hop-dancing"

/-! ### src/hooks/useDevicePerformance.ts -/

/-- Inputs of the one-shot probe effect in `useDevicePerformance`:
    whether a WebGL context could be created, the renderer string when the
    `WEBGL_debug_renderer_info` extension is present, whether the user agent
    matches `/Mobi|Android/i`, and `navigator.deviceMemory` when defined. -/
structure DeviceProbe where
  webglAvailable : Bool
  renderer : Option String
  isMobileUA : Bool
  deviceMemory : Option ℚ
deriving DecidableEq, Repr

/-- Contiguous-infix test on character lists, used to embed the JS
    `String.prototype.includes` checks on renderer strings. -/
def listInfix : List Char → List Char → Bool
  | pat, [] => pat.isEmpty
  | pat, l@(_ :: t) => pat.isPrefixOf l || listInfix pat t

/-- Substring test used to embed the renderer-string checks
    (`renderer.includes(...)` in the source). -/
def strContains (s pat : String) : Bool :=
  listInfix pat.toList s.toList

/-- Initial tier: `useState<PerformanceTier>('medium')`. -/
def baselineTier : PerformanceTier := .medium

/-- Renderer-string classification from the probe effect:
    Intel maps to medium; NVIDIA, AMD, Radeon or Apple map to high;
    any other renderer string leaves the tier unchanged. -/
def classifyRenderer (current : PerformanceTier) (r : String) : PerformanceTier :=
  if strContains r "Intel" then .medium
  else if strContains r "NVIDIA" || strContains r "AMD" || strContains r "Radeon" then .high
  else if strContains r "Apple" then .high
  else current

/-- Tier after the optional renderer classification; absence of the debug
    extension leaves the baseline tier. -/
def classifiedTier (renderer : Option String) : PerformanceTier :=
  match renderer with
  | none => baselineTier
  | some r => classifyRenderer baselineTier r

/-- Mobile-user-agent cap: `setTier(prev => prev === 'high' ? 'medium' : 'low')`
    hidden behind the `/Mobi|Android/i` test. -/
def mobileCap (t : PerformanceTier) : PerformanceTier :=
  if t = .high then .medium else .low

/-- Low-device-memory cap: `setTier(prev => prev === 'high' ? 'medium' : 'low')`
    hidden behind `memory && memory < 4`. -/
def memoryCap (t : PerformanceTier) : PerformanceTier :=
  if t = .high then .medium else .low

/-- Mobile stage of the pipeline: the cap runs only when the user agent
    matched `/Mobi|Android/i`. -/
def mobileStage (isMobileUA : Bool) (t : PerformanceTier) : PerformanceTier :=
  if isMobileUA then mobileCap t else t

/-- Memory stage of the pipeline: the cap runs only when `deviceMemory` is
    defined, truthy (nonzero) and below 4, mirroring `memory && memory < 4`. -/
def memoryStage (mem : Option ℚ) (t : PerformanceTier) : PerformanceTier :=
  match mem with
  | some m => if m ≠ 0 ∧ m < 4 then memoryCap t else t
  | none => t

/-- Tier after the full downgrade pipeline of the probe effect (WebGL
    available case): renderer classification, then the mobile-UA cap, then
    the low-memory cap. -/
def cappedTier (env : DeviceProbe) : PerformanceTier :=
  memoryStage env.deviceMemory (mobileStage env.isMobileUA (classifiedTier env.renderer))

/-- Derived target frame rate: `tier === 'low' ? 18 : 30`. -/
def targetFPS (t : PerformanceTier) : ℕ :=
  if t = .low then 18 else 30

/-- JS `x || dflt` on a possibly-missing numeric value: `undefined` and `0`
    are falsy. -/
def jsOr (x : Option ℚ) (dflt : ℚ) : ℚ :=
  match x with
  | none => dflt
  | some v => if v = 0 then dflt else v

/-- Derived pixel density: `Math.min(2, window.devicePixelRatio || 1)`. -/
def pixelRatio (dpr : Option ℚ) : ℚ :=
  min 2 (jsOr dpr 1)

structure UseDevicePerformanceReturn where
  tier : PerformanceTier
  targetFPS : ℕ
  supportsWebGL : Bool
  gpuInfo : String
  pixelRatio : ℚ
deriving DecidableEq, Repr

/-- Embedding of `useDevicePerformance` after its one-shot probe effect has
    run: when WebGL is unavailable the effect sets tier low and
    supportsWebGL false and returns early (gpuInfo keeps its initial empty
    string, no further heuristic runs); otherwise the downgrade pipeline
    produces the tier. The derived fields are pure functions of that state. -/
def useDevicePerformance (env : DeviceProbe) (dpr : Option ℚ) : UseDevicePerformanceReturn :=
  if env.webglAvailable then
    let t := cappedTier env
    { tier := t
      targetFPS := targetFPS t
      supportsWebGL := true
      gpuInfo := env.renderer.getD ""
      pixelRatio := pixelRatio dpr }
  else
    { tier := .low
      targetFPS := targetFPS .low
      supportsWebGL := false
      gpuInfo := ""
      pixelRatio := pixelRatio dpr }

/-- Numeric height of a tier in the order low < medium < high. -/
def tierVal : PerformanceTier → ℕ
  | .low => 0
  | .medium => 1
  | .high => 2

/-! ### src/hooks/useBearModel.ts : the playback controller.

The loaded action set is the string-keyed record returned by
`useAnimations`; a key may hold `null`, mirrored here by `Option AnimAction`
values. `playAnimation` hard-stops every other action and restarts the
requested one with a 0.5 s fade-in and infinite looping; an unknown (or
null) name warns and returns without touching anything. -/

structure AnimAction where
  running : Bool
  loopForever : Bool
  time : ℚ
  fadeDuration : ℚ
deriving DecidableEq, Repr

/-- `action.stop()`. -/
def AnimAction.stop (a : AnimAction) : AnimAction :=
  { a with running := false }

/-- `action.reset().fadeIn(0.5).play()` followed by
    `action.setLoop(THREE.LoopRepeat, Infinity)`. -/
def AnimAction.startLooping (a : AnimAction) : AnimAction :=
  { a with running := true, loopForever := true, time := 0, fadeDuration := 1/2 }

/-- The action record `actions` as an ordered association list (JS object
    entries in insertion order). -/
abbrev ActionMap := List (String × Option AnimAction)

/-- Lookup `actions[name]` (JS object property access over the entries in
    insertion order; keys of a JS object are unique). A missing key and a
    `null` value both yield `none`, matching the `!actions[name]` guard. -/
def getAction : ActionMap → String → Option AnimAction
  | [], _ => none
  | (k, v) :: t, name => if k = name then v else getAction t name

/-- Effect of one `playAnimation(name)` call on a single record entry: the
    entry named `name` is reset, faded in and set looping; every other entry
    is hard-stopped (`otherAction.stop()`, null entries untouched by the
    `otherAction &&` guard). -/
def playEntry (name : String) (p : String × Option AnimAction) : String × Option AnimAction :=
  if p.1 = name then (p.1, p.2.map AnimAction.startLooping)
  else (p.1, p.2.map AnimAction.stop)

/-- Embedding of `playAnimation`. The returned Bool is the warning signal
    (`console.warn`) emitted on the unknown-name path. On the success path
    every other registered action is stopped and the requested action is
    reset, faded in over 0.5 s, played, and set to loop forever. -/
def playAnimation (l : ActionMap) (name : String) : ActionMap × Bool :=
  match getAction l name with
  | none => (l, true)
  | some _ => (l.map (playEntry name), false)

/-- `stopAllAnimations`. -/
def stopAllAnimations (l : ActionMap) : ActionMap :=
  l.map (fun p => (p.1, p.2.map AnimAction.stop))

/-- State of the action set after a sequence of `playAnimation` calls. -/
def playFold (l : ActionMap) (calls : List String) : ActionMap :=
  calls.foldl (fun st m => (playAnimation st m).1) l

/-- Names of the currently active (non-stopped) actions, in record order. -/
def runningNames (l : ActionMap) : List String :=
  (l.filter (fun p => match p.2 with | some a => a.running | none => false)).map Prod.fst

/-! ### src/components/TapToStart.tsx and the start-overlay state in App.tsx.

App holds `isModelLoading` (true until `onLoadComplete`/`onLoadError`) and
`hasStarted`; the overlay is rendered only while `!hasStarted`. Inside
TapToStart, `handleClick` (and the Enter/Space key handler) invoke `onStart`
only when `!isLoading`. -/

structure AppStartState where
  isModelLoading : Bool
  hasStarted : Bool
deriving DecidableEq, Repr

inductive StartEvent
  | tap
  | loadComplete
  | loadError
deriving DecidableEq, Repr

/-- Whether the TapToStart overlay is rendered: `{!hasStarted && <TapToStart ...>}`. -/
def overlayShown (s : AppStartState) : Bool :=
  !s.hasStarted

/-- One event step of the start-overlay state machine: a tap reaches
    `handleClick` only while the overlay is rendered, and `onStart` fires
    only when not loading; load completion or error clears
    `isModelLoading` via the BearModel callbacks. -/
def startStep (s : AppStartState) : StartEvent → AppStartState
  | .tap =>
      if overlayShown s ∧ !s.isModelLoading then { s with hasStarted := true } else s
  | .loadComplete => { s with isModelLoading := false }
  | .loadError => { s with isModelLoading := false }

/-- Initial App state: `useState(true)` for isModelLoading, `useState(false)`
    for hasStarted. -/
def startInit : AppStartState := { isModelLoading := true, hasStarted := false }

/-- Start-overlay state after a sequence of events. -/
def startFold (events : List StartEvent) : AppStartState :=
  events.foldl startStep startInit

/-! ### App.tsx composition: render output as a pure function of state. -/

/-- Prism props as passed in the live `<Prism ...>` block of App.tsx. -/
structure PrismProps where
  animationType : String
  timeScale : ℚ
  height : ℚ
  baseWidth : ℚ
  scale : ℚ
  hueShift : ℚ
  colorFrequency : ℚ
  noise : ℚ
  glow : ℚ
  offsetY : ℚ
deriving DecidableEq, Repr

/-- `bearScale` in App.tsx: `deviceType === 'mobile' ? 0.28 : deviceType === 'tablet' ? 0.32 : 0.4`. -/
def bearScale (deviceType : DeviceType) : ℚ :=
  if deviceType = .mobile then 0.28 else if deviceType = .tablet then 0.32 else 0.4

/-- `bearYPosition` in App.tsx. -/
def bearYPosition (deviceType : DeviceType) : ℚ :=
  if deviceType = .mobile then -1.5 else if deviceType = .tablet then -1.8 else -2

/-- `prismBaseWidth` in App.tsx. -/
def prismBaseWidth (deviceType : DeviceType) : ℚ :=
  if deviceType = .mobile then 3.5 else if deviceType = .tablet then 4.5 else 5.5

/-- `prismScale` in App.tsx. -/
def prismScale (deviceType : DeviceType) : ℚ :=
  if deviceType = .mobile then 2.2 else if deviceType = .tablet then 2.8 else 3.6

/-- The props App.tsx passes to the background Prism on a render with the
    given selection index and device type. The selection index is a render
    input of App, but the live Prism block fixes
    `hueShift={0} colorFrequency={1} noise={0} glow={1}`; only the
    shape parameters vary, and only with device type. -/
def appPrismProps (_selectedIndex : ℕ) (deviceType : DeviceType) : PrismProps :=
  { animationType := "rotate"
    timeScale := 0.5
    height := 3.5
    baseWidth := prismBaseWidth deviceType
    scale := prismScale deviceType
    hueShift := 0
    colorFrequency := 1
    noise := 0
    glow := 1
    offsetY := -50 }

/-- The (per-render) view of the canvas region: either the BearModel canvas
    with its props or the error boundary's static fallback message. -/
inductive CanvasRegionView
  | canvas3D (animation : String) (scale : ℚ) (yPosition : ℚ) (fps : ℕ) (tier : PerformanceTier)
  | errorFallback (message : String)
deriving DecidableEq, Repr

/-- Embedding of `ErrorBoundary.render` (src/components/ErrorBoundary.tsx):
    with a caught error it returns the static fallback UI carrying the error
    message, otherwise it renders its children. -/
def errorBoundaryRender (caught : Option String) (children : CanvasRegionView) : CanvasRegionView :=
  match caught with
  | some msg => .errorFallback msg
  | none => children

/-- Props App.tsx passes to AnimationCarousel. -/
structure CarouselProps where
  animations : List Animation
  selectedIndex : ℕ
  deviceType : DeviceType
deriving DecidableEq, Repr

/-- Full render output of App.tsx as a pure function of its state. -/
structure AppView where
  warningBanner : Bool
  prism : PrismProps
  canvasRegion : CanvasRegionView
  overlay : Option Bool
  carousel : CarouselProps
deriving DecidableEq, Repr

/-- Embedding of App.tsx's render: the minimum-width warning banner, the
    Prism background, the ErrorBoundary-wrapped canvas with the BearModel
    props (animation name from `ANIMATIONS[selectedIndex]`), the TapToStart
    overlay (present iff `!hasStarted`, carrying `isModelLoading`), and the
    AnimationCarousel props. `canvasError` is the error caught by the
    ErrorBoundary around the Canvas, `none` when no rendering exception
    occurred. -/
def appRender (selectedIndex : ℕ) (isModelLoading hasStarted : Bool)
    (tier : PerformanceTier) (deviceType : DeviceType) (isBelowMinWidth : Bool)
    (canvasError : Option String) : AppView :=
  { warningBanner := isBelowMinWidth
    prism := appPrismProps selectedIndex deviceType
    canvasRegion := errorBoundaryRender canvasError
      (.canvas3D (((ANIMATIONS.get? selectedIndex).map (fun a => a.name)).getD "")
        (bearScale deviceType) (bearYPosition deviceType) (targetFPS tier) tier)
    overlay := if hasStarted then none else some isModelLoading
    carousel := { animations := ANIMATIONS, selectedIndex := selectedIndex, deviceType := deviceType } }

/-- A small concrete action set (three of the clips the loaded GLTF
    provides), used to evaluate the playback theorems on concrete input. -/
def sampleActions : ActionMap :=
  [("hip-hop-dancing", some { running := true, loopForever := true, time := 0, fadeDuration := 1/2 }),
   ("jumping", some { running := false, loopForever := false, time := 0, fadeDuration := 0 }),
   ("punching", some { running := false, loopForever := false, time := 0, fadeDuration := 0 })]

/-! ## Theorems -/

/-- C3: for every name with no matching action in the loaded action set,
    `playAnimation(name)` is a no-op that emits a warning — the action set
    is returned unchanged together with the warning signal, so the
    previously playing animation's state is untouched and no exception
    escapes (the embedded controller is a total function). -/
theorem c3_unknown_name_noop (l : ActionMap) (name : String)
    (h : getAction l name = none) :
    playAnimation l name = (l, true) := by
  simp [playAnimation, h]

theorem c3_unknown_name_noop_witness :
    getAction sampleActions "flying" = none ∧
    playAnimation sampleActions "flying" = (sampleActions, true) :=
  ⟨rfl, c3_unknown_name_noop sampleActions "flying" rfl⟩

/-- C4: device category is a pure function of viewport width only (height
    is ignored): width < 768 gives mobile, 768 ≤ width < 1024 gives tablet,
    1024 ≤ width gives desktop, and the category does not depend on the
    height argument. -/
theorem c4_device_category (w h : ℚ) :
    (w < 768 → (useResponsive w h).deviceType = .mobile) ∧
    (768 ≤ w → w < 1024 → (useResponsive w h).deviceType = .tablet) ∧
    (1024 ≤ w → (useResponsive w h).deviceType = .desktop) ∧
    (∀ h' : ℚ, (useResponsive w h').deviceType = (useResponsive w h).deviceType) := by
  refine ⟨?_, ?_, ?_, fun h' => rfl⟩
  · intro hw
    simp [useResponsive, BREAKPOINTS, hw]
  · intro h1 h2
    simp [useResponsive, BREAKPOINTS, not_lt.mpr h1, h2]
  · intro h1
    have h2 : ¬ w < 768 := not_lt.mpr (le_trans (by norm_num) h1)
    have h3 : ¬ w < 1024 := not_lt.mpr h1
    simp [useResponsive, BREAKPOINTS, h2, h3]

theorem c4_device_category_witness :
    ((767 : ℚ) < 768 ∧ (useResponsive 767 1000).deviceType = .mobile) ∧
    ((768 : ℚ) ≤ 768 ∧ (768 : ℚ) < 1024 ∧ (useResponsive 768 1000).deviceType = .tablet) ∧
    ((1024 : ℚ) ≤ 1024 ∧ (useResponsive 1024 1000).deviceType = .desktop) :=
  ⟨⟨by norm_num, (c4_device_category 767 1000).1 (by norm_num)⟩,
   ⟨by norm_num, by norm_num, (c4_device_category 768 1000).2.1 (by norm_num) (by norm_num)⟩,
   ⟨by norm_num, (c4_device_category 1024 1000).2.2.1 (by norm_num)⟩⟩

/-- C5: when the WebGL probe finds no context, the detector reports
    tier = low, supportsWebGL = false and targetFPS = 18, and none of the
    further downgrade heuristics run — the result is the same for every
    probe environment without WebGL, whatever its renderer string, user
    agent or device memory. -/
theorem c5_webgl_unavailable_floor (env : DeviceProbe) (dpr : Option ℚ)
    (h : env.webglAvailable = false) :
    (useDevicePerformance env dpr).tier = .low ∧
    (useDevicePerformance env dpr).supportsWebGL = false ∧
    (useDevicePerformance env dpr).targetFPS = 18 ∧
    ∀ env' : DeviceProbe, env'.webglAvailable = false →
      useDevicePerformance env' dpr = useDevicePerformance env dpr := by
  refine ⟨?_, ?_, ?_, ?_⟩
  · simp [useDevicePerformance, h]
  · simp [useDevicePerformance, h]
  · simp [useDevicePerformance, h, targetFPS]
  · intro env' h'
    simp [useDevicePerformance, h, h']

theorem c5_webgl_unavailable_floor_witness :
    ({ webglAvailable := false, renderer := some "NVIDIA GeForce RTX 3080",
       isMobileUA := true, deviceMemory := some 2 } : DeviceProbe).webglAvailable = false ∧
    ((useDevicePerformance
        { webglAvailable := false, renderer := some "NVIDIA GeForce RTX 3080",
          isMobileUA := true, deviceMemory := some 2 } (some 1)).tier = .low ∧
      (useDevicePerformance
        { webglAvailable := false, renderer := some "NVIDIA GeForce RTX 3080",
          isMobileUA := true, deviceMemory := some 2 } (some 1)).supportsWebGL = false ∧
      (useDevicePerformance
        { webglAvailable := false, renderer := some "NVIDIA GeForce RTX 3080",
          isMobileUA := true, deviceMemory := some 2 } (some 1)).targetFPS = 18 ∧
      ∀ env' : DeviceProbe, env'.webglAvailable = false →
        useDevicePerformance env' (some 1) =
          useDevicePerformance
            { webglAvailable := false, renderer := some "NVIDIA GeForce RTX 3080",
              isMobileUA := true, deviceMemory := some 2 } (some 1)) :=
  ⟨rfl, c5_webgl_unavailable_floor _ (some 1) rfl⟩

/-- C9: a rendering exception caught by the error boundary replaces only
    the canvas region with the static error fallback; the Prism background,
    the carousel, the overlay and the warning banner of the same render are
    identical to the error-free render. -/
theorem c9_error_boundary_isolation (i : ℕ) (l h : Bool) (t : PerformanceTier)
    (d : DeviceType) (b : Bool) (msg : String) :
    (appRender i l h t d b (some msg)).canvasRegion = .errorFallback msg ∧
    (appRender i l h t d b (some msg)).prism = (appRender i l h t d b none).prism ∧
    (appRender i l h t d b (some msg)).carousel = (appRender i l h t d b none).carousel ∧
    (appRender i l h t d b (some msg)).overlay = (appRender i l h t d b none).overlay ∧
    (appRender i l h t d b (some msg)).warningBanner = (appRender i l h t d b none).warningBanner :=
  ⟨rfl, rfl, rfl, rfl, rfl⟩

/-- C10: the exposed pixel density is `min(2, devicePixelRatio)` with a
    default of 1 when the ratio is unavailable, and it never exceeds 2. -/
theorem c10_pixel_ratio_capped (dpr : Option ℚ) (h : ∀ r, dpr = some r → 0 < r) :
    pixelRatio dpr = min 2 (dpr.getD 1) ∧ pixelRatio dpr ≤ 2 := by
  constructor
  · cases dpr with
    | none => rfl
    | some r =>
        have hr : r ≠ 0 := ne_of_gt (h r rfl)
        simp [pixelRatio, jsOr, hr]
  · exact min_le_left _ _

theorem c10_pixel_ratio_capped_witness :
    (∀ r : ℚ, (some 3 : Option ℚ) = some r → 0 < r) ∧
    (pixelRatio (some 3) = min 2 ((some 3 : Option ℚ)).getD 1 ∧ pixelRatio (some 3) ≤ 2) :=
  ⟨fun r hr => by rw [← Option.some_inj.mp hr]; norm_num,
   c10_pixel_ratio_capped (some 3) (fun r hr => by rw [← Option.some_inj.mp hr]; norm_num)⟩

/-- C1: evaluation of the code at the failing input. The live Prism block in
    App.tsx passes constant color parameters — hueShift 0 and
    colorFrequency 1 for every selection index and device type — while the
    catalog entry at index 2 ("punching") declares hueShift −0.5, so after
    selecting indices 0, 1, 2 the background's hueShift is 0, not −0.5, and
    the four color parameters are never copied from the catalog. -/
theorem c1_background_params_constant :
    (∀ i j : ℕ, ∀ d : DeviceType, appPrismProps i d = appPrismProps j d) ∧
    (∀ i : ℕ, ∀ d : DeviceType,
      (appPrismProps i d).hueShift = 0 ∧ (appPrismProps i d).colorFrequency = 1) ∧
    (ANIMATIONS.get? 2).map (fun a => a.name) = some "punching" ∧
    (ANIMATIONS.get? 2).map (fun a => a.colorScheme.hueShift) = some (-0.5) ∧
    (appPrismProps 2 .desktop).hueShift ≠ -0.5 := by
  refine ⟨fun i j d => rfl, fun i d => ⟨rfl, rfl⟩, rfl, rfl, ?_⟩
  norm_num [appPrismProps]

/-- C6: both tier-coarsening caps map high to medium and every other tier
    to low, both are non-increasing on the order low < medium < high, and
    the capping stage of the detection pipeline never produces a tier above
    the renderer-classified tier it starts from. -/
theorem c6_caps_monotone :
    (∀ t, mobileCap t = if t = .high then .medium else .low) ∧
    (∀ t, memoryCap t = if t = .high then .medium else .low) ∧
    (∀ t, tierVal (mobileCap t) ≤ tierVal t) ∧
    (∀ t, tierVal (memoryCap t) ≤ tierVal t) ∧
    (∀ env : DeviceProbe, tierVal (cappedTier env) ≤ tierVal (classifiedTier env.renderer)) := by
  have hmob : ∀ t, tierVal (mobileCap t) ≤ tierVal t := fun t => by cases t <;> decide
  have hmem : ∀ t, tierVal (memoryCap t) ≤ tierVal t := fun t => by cases t <;> decide
  have hstage1 : ∀ (u : Bool) (t : PerformanceTier), tierVal (mobileStage u t) ≤ tierVal t := by
    intro u t
    unfold mobileStage
    cases u
    · exact le_refl _
    · exact hmob t
  have hstage2 : ∀ (mem : Option ℚ) (t : PerformanceTier),
      tierVal (memoryStage mem t) ≤ tierVal t := by
    intro mem t
    unfold memoryStage
    cases mem with
    | none => exact le_refl _
    | some m =>
        dsimp only
        by_cases hc : m ≠ 0 ∧ m < 4
        · rw [if_pos hc]
          exact hmem t
        · rw [if_neg hc]
  refine ⟨fun t => rfl, fun t => rfl, hmob, hmem, fun env => ?_⟩
  exact le_trans (hstage2 _ _) (hstage1 _ _)

/-- C7 counterexample: the mobile preset bear scale (0.28) is not half the
    desktop preset bear scale (0.4). -/
theorem c7_not_halved : ¬ bearScale .mobile = bearScale .desktop / 2 := by
  have h1 : bearScale .mobile = 0.28 := rfl
  have h2 : bearScale .desktop = 0.4 := rfl
  rw [h1, h2]
  norm_num

/-- C7 amended: after the viewport changes from 1280 px to 600 px and the
    100 ms debounce window elapses (the debounced state coalesces to the
    last resize event), the device category flips from desktop to mobile
    and the bear scale drops from the desktop preset 0.4 to the mobile
    preset 0.28 — a factor of 0.7, not one half. -/
theorem c7_resize_scenario :
    (useResponsive 1280 800).deviceType = .desktop ∧
    debouncedViewport (1280, 800) [(600, 800)] = (600, 800) ∧
    (useResponsive 600 800).deviceType = .mobile ∧
    bearScale (useResponsive 1280 800).deviceType = 0.4 ∧
    bearScale (useResponsive 600 800).deviceType = 0.28 ∧
    bearScale (useResponsive 600 800).deviceType =
      (7 / 10) * bearScale (useResponsive 1280 800).deviceType := by
  have h1 : bearScale (useResponsive 600 800).deviceType = 0.28 := rfl
  have h2 : bearScale (useResponsive 1280 800).deviceType = 0.4 := rfl
  refine ⟨rfl, rfl, rfl, h2, h1, ?_⟩
  rw [h1, h2]
  norm_num

/-- C8 counterexample: starting from the initial state (loading, not
    started), a tap during loading followed by load completion leaves the
    overlay still shown — the early tap is ignored, not registered, so the
    overlay is not dismissed without a further tap. -/
theorem c8_tap_during_load_ignored :
    overlayShown (startFold [.tap, .loadComplete]) = true ∧
    (startFold [.tap, .loadComplete]).hasStarted = false := by
  decide

/-- C8 amended: a tap while the model is loading is a no-op on the start
    state; once dismissed, the overlay stays dismissed under every event;
    and a tap after loading has completed (with the overlay still shown)
    dismisses the overlay, which is rendered exactly while hasStarted is
    false. -/
theorem c8_tap_gating :
    (∀ s : AppStartState, s.isModelLoading = true → startStep s .tap = s) ∧
    (∀ (s : AppStartState) (e : StartEvent), s.hasStarted = true →
      (startStep s e).hasStarted = true) ∧
    (∀ s : AppStartState, s.isModelLoading = false → s.hasStarted = false →
      (startStep s .tap).hasStarted = true) ∧
    (∀ s : AppStartState, overlayShown s = !s.hasStarted) := by
  refine ⟨?_, ?_, ?_, fun s => rfl⟩
  · rintro ⟨l, st⟩ h
    subst h
    cases st <;> rfl
  · rintro ⟨l, st⟩ e h
    subst h
    cases e <;> cases l <;> rfl
  · rintro ⟨l, st⟩ h1 h2
    subst h1
    subst h2
    rfl

theorem c8_tap_gating_witness :
    startStep { isModelLoading := true, hasStarted := false } .tap =
      { isModelLoading := true, hasStarted := false } ∧
    (startStep { isModelLoading := false, hasStarted := true } .loadComplete).hasStarted = true ∧
    (startStep { isModelLoading := false, hasStarted := false } .tap).hasStarted = true :=
  ⟨c8_tap_gating.1 { isModelLoading := true, hasStarted := false } rfl,
   c8_tap_gating.2.1 { isModelLoading := false, hasStarted := true } .loadComplete rfl,
   c8_tap_gating.2.2.1 { isModelLoading := false, hasStarted := false } rfl rfl⟩

/-! ### Helper lemmas for the playback-arbitration claim -/

theorem playEntry_fst (name : String) (p : String × Option AnimAction) :
    (playEntry name p).1 = p.1 := by
  unfold playEntry
  split <;> rfl

theorem playEntry_eq_of_eq (name k : String) (v : Option AnimAction) (h : k = name) :
    playEntry name (k, v) = (k, v.map AnimAction.startLooping) := by
  simp [playEntry, h]

theorem playEntry_eq_of_ne (name k : String) (v : Option AnimAction) (h : ¬ k = name) :
    playEntry name (k, v) = (k, v.map AnimAction.stop) := by
  simp [playEntry, h]

theorem getAction_cons (k : String) (v : Option AnimAction) (t : ActionMap) (name : String) :
    getAction ((k, v) :: t) name = if k = name then v else getAction t name := rfl

theorem playAnimation_keys (l : ActionMap) (name : String) :
    ((playAnimation l name).1).map Prod.fst = l.map Prod.fst := by
  unfold playAnimation
  cases h : getAction l name with
  | none => rfl
  | some a =>
      dsimp only
      rw [List.map_map]
      exact List.map_congr_left fun p _ => playEntry_fst name p

theorem getAction_map_play (name m : String) (l : ActionMap) :
    getAction (l.map (playEntry name)) m =
      (getAction l m).map (fun a => if m = name then a.startLooping else a.stop) := by
  induction l with
  | nil => rfl
  | cons p t ih =>
      obtain ⟨k, v⟩ := p
      rw [List.map_cons]
      by_cases hn : k = name
      · rw [playEntry_eq_of_eq name k v hn, getAction_cons, getAction_cons]
        by_cases hk : k = m
        · rw [if_pos hk, if_pos hk]
          have hmn : m = name := by rw [← hk]; exact hn
          cases v <;> simp [hmn]
        · rw [if_neg hk, if_neg hk, ih]
      · rw [playEntry_eq_of_ne name k v hn, getAction_cons, getAction_cons]
        by_cases hk : k = m
        · rw [if_pos hk, if_pos hk]
          have hmn : ¬ m = name := by rw [← hk]; exact hn
          cases v <;> simp [hmn]
        · rw [if_neg hk, if_neg hk, ih]

theorem runningNames_cons_some (k : String) (a : AnimAction) (t : ActionMap) :
    runningNames ((k, some a) :: t) =
      if a.running = true then k :: runningNames t else runningNames t := by
  unfold runningNames
  rw [List.filter_cons]
  by_cases h : a.running = true
  · simp [h]
  · simp [h]

theorem runningNames_cons_none (k : String) (t : ActionMap) :
    runningNames ((k, none) :: t) = runningNames t := by
  unfold runningNames
  rw [List.filter_cons]
  simp

theorem runningNames_map_play (name : String) (l : ActionMap) :
    runningNames (l.map (playEntry name)) =
      (l.filter (fun p => p.1 = name && p.2.isSome)).map Prod.fst := by
  induction l with
  | nil => rfl
  | cons p t ih =>
      obtain ⟨k, v⟩ := p
      rw [List.map_cons, List.filter_cons]
      by_cases hn : k = name
      · rw [playEntry_eq_of_eq name k v hn]
        cases v with
        | some a =>
            simp only [Option.map_some']
            rw [runningNames_cons_some]
            simp [AnimAction.startLooping, hn, ih]
        | none =>
            simp only [Option.map_none']
            rw [runningNames_cons_none]
            simp [hn, ih]
      · rw [playEntry_eq_of_ne name k v hn]
        cases v with
        | some a =>
            simp only [Option.map_some']
            rw [runningNames_cons_some]
            simp [AnimAction.stop, hn, ih]
        | none =>
            simp only [Option.map_none']
            rw [runningNames_cons_none]
            simp [hn, ih]

theorem filter_keys_none (name : String) (t : ActionMap)
    (h : name ∉ t.map Prod.fst) :
    t.filter (fun p => p.1 = name && p.2.isSome) = [] := by
  induction t with
  | nil => rfl
  | cons p t ih =>
      obtain ⟨k, v⟩ := p
      rw [List.map_cons, List.mem_cons, not_or] at h
      simp [List.filter, Ne.symm h.1, ih h.2]

theorem filter_key_singleton (name : String) (a : AnimAction) (l : ActionMap)
    (hnd : (l.map Prod.fst).Nodup) (ha : getAction l name = some a) :
    (l.filter (fun p => p.1 = name && p.2.isSome)).map Prod.fst = [name] := by
  induction l with
  | nil => simp [getAction] at ha
  | cons p t ih =>
      obtain ⟨k, v⟩ := p
      rw [List.map_cons, List.nodup_cons] at hnd
      by_cases hk : k = name
      · subst hk
        have hv : v = some a := by simpa [getAction] using ha
        subst hv
        have hnone : t.filter (fun p => p.1 = k && p.2.isSome) = [] :=
          filter_keys_none k t hnd.1
        simp [List.filter, hnone]
      · have ha' : getAction t name = some a := by simpa [getAction, hk] using ha
        simp [List.filter, hk, ih hnd.2 ha']

theorem play_spec (l : ActionMap) (name : String) (a : AnimAction)
    (hnd : (l.map Prod.fst).Nodup) (ha : getAction l name = some a) :
    runningNames (playAnimation l name).1 = [name] ∧
    getAction (playAnimation l name).1 name = some a.startLooping := by
  have hplay : (playAnimation l name).1 = l.map (playEntry name) := by
    unfold playAnimation
    rw [ha]
  rw [hplay]
  constructor
  · rw [runningNames_map_play]
    exact filter_key_singleton name a l hnd ha
  · rw [getAction_map_play, ha]
    simp

theorem playAnimation_isSome (l : ActionMap) (x m : String) :
    (getAction (playAnimation l x).1 m).isSome = (getAction l m).isSome := by
  unfold playAnimation
  cases h : getAction l x with
  | none => rfl
  | some a =>
      dsimp only
      rw [getAction_map_play]
      simp [Option.isSome_map]

theorem playFold_keys (l : ActionMap) (cs : List String) :
    (playFold l cs).map Prod.fst = l.map Prod.fst := by
  induction cs generalizing l with
  | nil => rfl
  | cons c cs ih =>
      calc (playFold l (c :: cs)).map Prod.fst
          = (playFold (playAnimation l c).1 cs).map Prod.fst := rfl
        _ = ((playAnimation l c).1).map Prod.fst := ih _
        _ = l.map Prod.fst := playAnimation_keys l c

theorem playFold_isSome (l : ActionMap) (cs : List String) (m : String) :
    (getAction (playFold l cs) m).isSome = (getAction l m).isSome := by
  induction cs generalizing l with
  | nil => rfl
  | cons c cs ih =>
      calc (getAction (playFold l (c :: cs)) m).isSome
          = (getAction (playFold (playAnimation l c).1 cs) m).isSome := rfl
        _ = (getAction (playAnimation l c).1 m).isSome := ih _
        _ = (getAction l m).isSome := playAnimation_isSome l c m

/-- C2: for every finite nonempty sequence of playAnimation calls whose
    names all exist in the loaded action set (keys unique, as in a JS
    object), after the last call exactly one action is active — the one
    named in the last call — and it is running and configured to loop
    indefinitely. Repeated names (for example the same name twice in a
    row) are allowed, so two concurrently playing actions never result. -/
theorem c2_last_call_wins (actions : ActionMap) (ns : List String) (n : String)
    (hnd : (actions.map Prod.fst).Nodup)
    (hall : ∀ m ∈ ns ++ [n], (getAction actions m).isSome = true) :
    runningNames (playFold actions (ns ++ [n])) = [n] ∧
    ∃ a, getAction (playFold actions (ns ++ [n])) n = some a ∧
      a.running = true ∧ a.loopForever = true := by
  have hmk : (playFold actions ns).map Prod.fst = actions.map Prod.fst :=
    playFold_keys actions ns
  have hmnd : ((playFold actions ns).map Prod.fst).Nodup := by
    rw [hmk]
    exact hnd
  have hsome : (getAction (playFold actions ns) n).isSome = true := by
    rw [playFold_isSome]
    exact hall n (by simp)
  obtain ⟨a, ha⟩ := Option.isSome_iff_exists.mp hsome
  have hfold : playFold actions (ns ++ [n]) = (playAnimation (playFold actions ns) n).1 := by
    simp [playFold, List.foldl_append]
  obtain ⟨h1, h2⟩ := play_spec (playFold actions ns) n a hmnd ha
  rw [hfold]
  exact ⟨h1, ⟨a.startLooping, h2, rfl, rfl⟩⟩

theorem c2_last_call_wins_witness :
    ((sampleActions.map Prod.fst).Nodup ∧
      ∀ m ∈ (["jumping", "punching"] ++ ["punching"] : List String),
        (getAction sampleActions m).isSome = true) ∧
    (runningNames (playFold sampleActions (["jumping", "punching"] ++ ["punching"])) = ["punching"] ∧
      ∃ a, getAction (playFold sampleActions (["jumping", "punching"] ++ ["punching"])) "punching" = some a ∧
        a.running = true ∧ a.loopForever = true) :=
  ⟨⟨by decide, by decide⟩,
   c2_last_call_wins sampleActions ["jumping", "punching"] "punching" (by decide) (by decide)⟩

end HairyBear
